import Mathlib

/-!
Verification of the multi-session harvest orchestrator in `smart_harvester.py`.

The Python module is shallowly embedded: the `VideoData` record, the
`all_videos` dictionary (the Corpus), the session log, the duplicate guard,
the gap scheduler, the continuation planner, the age-priority parser and the
load/save persistence layer are translated into executable Lean definitions,
and the specification's claims about them are settled as theorems.

Modelling conventions:
* Python `dict` (insertion ordered) becomes an association list.
* Python `float` arithmetic on success rates, ratios and multipliers becomes
  exact `ℚ` arithmetic; `int(x)` on a float becomes truncation toward zero.
* A `datetime` is represented by its ISO string (`isoformat` and
  `fromisoformat` are mutually inverse, so the string is a faithful proxy).
* Raised exceptions become the `Except.error` branch of `Except`.
-/

/-- The `VideoData` dataclass of `facebook_video_scraper.py`: one collected
video record.  `video_id` is the dedup identity. -/
structure VideoData where
  video_id : String
  title : String
  url : String
  date : String
  date_raw : String
  likes : ℤ
  comments : ℤ
  shares : ℤ
  views : String
  description : String
  thumbnail_url : String
deriving DecidableEq, Repr

/-- The Corpus: the `self.all_videos` dictionary (`video_id -> VideoData`),
modelled as an insertion-ordered association list. -/
abbrev Corpus := List (String × VideoData)

/-- The key list of the corpus dictionary. -/
def corpusKeys (c : Corpus) : List String := c.map Prod.fst

/-- Membership test `video_id in self.all_videos`. -/
def containsId (c : Corpus) (k : String) : Bool := c.any (fun p => p.1 == k)

/-- `Corpus.size()`: `len(self.all_videos)`. -/
def corpusSize (c : Corpus) : ℕ := c.length

/-- The merge step of `run_harvest_session` (lines 493–499): insert the video
only when its id is not yet a key; a duplicate leaves the dictionary
untouched. -/
def mergeVideo (c : Corpus) (v : VideoData) : Corpus :=
  if containsId c v.video_id then c else c ++ [(v.video_id, v)]

/-- Folding the merge step over a whole scraped batch (the `for video in
videos` loop of `run_harvest_session`). -/
def mergeAll (c : Corpus) (items : List VideoData) : Corpus :=
  items.foldl mergeVideo c

/-- `self.duplicate_threshold = 0.8`, as an exact rational. -/
def duplicateThreshold : ℚ := 4 / 5

/-- `self.early_check_count = 20`. -/
def earlyCheckCount : ℕ := 20

/-- `sum(1 for video in scraped_videos if video.video_id in self.all_videos)`. -/
def dupCount (c : Corpus) (scraped : List VideoData) : ℕ :=
  (scraped.filter (fun v => containsId c v.video_id)).length

/-- `_should_continue_session` (lines 153–175): continue unconditionally on
fewer than 20 items, otherwise stop exactly when the duplicate ratio
(`duplicates / len(scraped_videos)`) reaches the 0.8 threshold. -/
def should_continue_session (c : Corpus) (scraped : List VideoData) : Bool :=
  if scraped.length < earlyCheckCount then true
  else if (dupCount c scraped : ℚ) / (scraped.length : ℚ) ≥ duplicateThreshold then false
  else true

section CorpusLemmas

lemma containsId_iff (c : Corpus) (k : String) :
    containsId c k = true ↔ k ∈ corpusKeys c := by
  unfold containsId corpusKeys
  rw [List.any_eq_true]
  constructor
  · rintro ⟨p, hp, hbeq⟩
    exact List.mem_map.mpr ⟨p, hp, by simpa using hbeq⟩
  · intro hmem
    obtain ⟨p, hp, heq⟩ := List.mem_map.mp hmem
    exact ⟨p, hp, by simpa using heq⟩

lemma corpusKeys_toFinset_mergeVideo (c : Corpus) (v : VideoData) :
    (corpusKeys (mergeVideo c v)).toFinset =
      insert v.video_id (corpusKeys c).toFinset := by
  unfold mergeVideo
  by_cases h : containsId c v.video_id
  · rw [if_pos h]
    have hmem : v.video_id ∈ (corpusKeys c).toFinset :=
      List.mem_toFinset.mpr ((containsId_iff c v.video_id).mp h)
    exact (Finset.insert_eq_self.mpr hmem).symm
  · rw [if_neg h]
    have h1 : corpusKeys (c ++ [(v.video_id, v)]) = corpusKeys c ++ [v.video_id] := by
      simp [corpusKeys]
    rw [h1, List.toFinset_append]
    ext a
    simp [or_comm]

lemma corpusKeys_nodup_mergeVideo (c : Corpus) (v : VideoData)
    (h : (corpusKeys c).Nodup) : (corpusKeys (mergeVideo c v)).Nodup := by
  unfold mergeVideo
  by_cases hc : containsId c v.video_id
  · rw [if_pos hc]; exact h
  · rw [if_neg hc]
    have hnot : v.video_id ∉ corpusKeys c := by
      intro hmem
      exact hc ((containsId_iff c v.video_id).mpr hmem)
    have h1 : corpusKeys (c ++ [(v.video_id, v)]) = corpusKeys c ++ [v.video_id] := by
      simp [corpusKeys]
    rw [h1]
    refine List.Nodup.append h (List.nodup_singleton _) ?_
    intro a ha hmem
    simp at hmem
    subst hmem
    exact hnot ha

lemma mergeAll_keys_toFinset (items : List VideoData) :
    ∀ c : Corpus, (corpusKeys (mergeAll c items)).toFinset =
      (corpusKeys c).toFinset ∪ (items.map VideoData.video_id).toFinset := by
  induction items with
  | nil => intro c; simp [mergeAll]
  | cons v rest ih =>
      intro c
      have hstep : mergeAll c (v :: rest) = mergeAll (mergeVideo c v) rest := rfl
      rw [hstep, ih (mergeVideo c v), corpusKeys_toFinset_mergeVideo]
      ext k
      simp only [Finset.mem_union, Finset.mem_insert, List.map_cons,
        List.toFinset_cons, List.mem_toFinset]
      tauto

lemma mergeAll_keys_nodup (items : List VideoData) :
    ∀ c : Corpus, (corpusKeys c).Nodup → (corpusKeys (mergeAll c items)).Nodup := by
  induction items with
  | nil => intro c h; exact h
  | cons v rest ih =>
      intro c h
      exact ih (mergeVideo c v) (corpusKeys_nodup_mergeVideo c v h)

lemma corpusSize_eq_keys_length (c : Corpus) :
    corpusSize c = (corpusKeys c).length := by
  simp [corpusSize, corpusKeys]

end CorpusLemmas

/-- Claim C1: merging an item whose identity is already present leaves the
corpus (hence the stored item) unchanged and does not change the size;
consequently, starting from an empty corpus, after merging any list of items
the corpus size equals the number of distinct identities merged. -/
theorem corpus_merge_first_seen_wins :
    (∀ (c : Corpus) (v : VideoData), containsId c v.video_id = true →
      mergeVideo c v = c ∧ corpusSize (mergeVideo c v) = corpusSize c) ∧
    (∀ items : List VideoData,
      corpusSize (mergeAll [] items) = (items.map VideoData.video_id).toFinset.card) := by
  constructor
  · intro c v h
    constructor
    · simp [mergeVideo, h]
    · simp [mergeVideo, h]
  · intro items
    have hnodup : (corpusKeys (mergeAll [] items)).Nodup :=
      mergeAll_keys_nodup items [] (by simp [corpusKeys])
    have hfin := mergeAll_keys_toFinset items []
    rw [corpusSize_eq_keys_length, ← List.toFinset_card_of_nodup hnodup, hfin]
    simp [corpusKeys]

/-- Sample video used in concrete evaluations. -/
def mkVideo (s : String) : VideoData :=
  { video_id := s, title := "", url := "", date := "", date_raw := "",
    likes := 0, comments := 0, shares := 0, views := "", description := "",
    thumbnail_url := "" }

/-- A concrete corpus holding videos with ids "0" … "15". -/
def exCorpus16 : Corpus := (List.range 16).map (fun n => (Nat.repr n, mkVideo (Nat.repr n)))

/-- A concrete corpus holding videos with ids "0" … "14". -/
def exCorpus15 : Corpus := (List.range 15).map (fun n => (Nat.repr n, mkVideo (Nat.repr n)))

/-- Twenty scraped videos with ids "0" … "19". -/
def exItems20 : List VideoData := (List.range 20).map (fun n => mkVideo (Nat.repr n))

/-- Witness for C1 at concrete inputs. -/
theorem corpus_merge_first_seen_wins_witness :
    mergeVideo [("0", mkVideo "0")] (mkVideo "0") = [("0", mkVideo "0")] ∧
    corpusSize (mergeAll [] [mkVideo "0", mkVideo "1", mkVideo "0"]) = 2 := by
  refine ⟨(corpus_merge_first_seen_wins.1 [("0", mkVideo "0")] (mkVideo "0") (by decide)).1, ?_⟩
  rw [corpus_merge_first_seen_wins.2 [mkVideo "0", mkVideo "1", mkVideo "0"]]
  decide

/-- Claim C2: the duplicate guard continues unconditionally below 20 items,
and at 20 or more stops exactly when the duplicate fraction reaches 0.8. -/
theorem duplicate_guard_threshold :
    (∀ (c : Corpus) (scraped : List VideoData), scraped.length < 20 →
      should_continue_session c scraped = true) ∧
    (∀ (c : Corpus) (scraped : List VideoData), 20 ≤ scraped.length →
      (should_continue_session c scraped = false ↔
        (dupCount c scraped : ℚ) / (scraped.length : ℚ) ≥ 4 / 5)) := by
  constructor
  · intro c scraped h
    unfold should_continue_session
    rw [if_pos (by simpa [earlyCheckCount] using h)]
  · intro c scraped h
    have hnot : ¬ scraped.length < earlyCheckCount := by
      simp only [earlyCheckCount]; omega
    unfold should_continue_session
    rw [if_neg hnot]
    constructor
    · intro hfalse
      by_cases hge : (dupCount c scraped : ℚ) / (scraped.length : ℚ) ≥ duplicateThreshold
      · simpa [duplicateThreshold] using hge
      · rw [if_neg hge] at hfalse
        exact absurd hfalse (by simp)
    · intro hge
      rw [if_pos (by simpa [duplicateThreshold] using hge)]

/-- Witness for C2: 16 duplicates among 20 items stops the session, 15 among
20 lets it continue. -/
theorem duplicate_guard_threshold_witness :
    should_continue_session exCorpus16 exItems20 = false ∧
    should_continue_session exCorpus15 exItems20 = true := by
  have h16 : dupCount exCorpus16 exItems20 = 16 := by decide
  have h15 : dupCount exCorpus15 exItems20 = 15 := by decide
  have hlen : exItems20.length = 20 := by decide
  constructor
  · refine (duplicate_guard_threshold.2 exCorpus16 exItems20 (by decide)).mpr ?_
    rw [h16, hlen]
    norm_num
  · cases htrue : should_continue_session exCorpus15 exItems20 with
    | true => rfl
    | false =>
        exfalso
        have hq := (duplicate_guard_threshold.2 exCorpus15 exItems20 (by decide)).mp htrue
        rw [h15, hlen] at hq
        norm_num at hq

/-- The `ContinuationPoint` dataclass of `smart_harvester.py`. -/
structure ContinuationPoint where
  strategy : String
  reasoning : String
  scroll_offset : ℤ
  target_date_range : Option String
  anchor_video_id : Option String
  expected_scroll_depth : ℤ
  date_filter_active : Bool
  scroll_strategy : String
deriving DecidableEq, Repr

/-- The `HarvestSession` dataclass: one completed session's log entry.  The
`timestamp` is the `datetime` in its ISO form. -/
structure HarvestSession where
  session_id : String
  timestamp : String
  videos_found : ℕ
  success_rate : ℚ
  completion_time : ℚ
  target_filter : String
  total_score : ℤ
  continuation_point : Option ContinuationPoint
deriving DecidableEq, Repr

/-- Python `int(x)` on a float: truncation toward zero. -/
def truncTowardZero (q : ℚ) : ℤ := if 0 ≤ q then ⌊q⌋ else -⌊-q⌋

/-- The degradation test of `_calculate_session_gap` (lines 238–244): the two
most recent sessions exist and the last success rate is more than 10 points
below the one before it. -/
def degradationDetected (sessions : List HarvestSession) : Bool :=
  match (sessions.map HarvestSession.success_rate).reverse with
  | last :: secondLast :: _ => decide (last < secondLast - 10)
  | _ => false

/-- `_calculate_session_gap` (lines 233–253).  `base_gap` stands for the
`random.randint(session_gap_min, session_gap_max)` draw; `gap_multiplier` is
the caller-supplied hint.  The 3.0 degradation multiplier and the 2.5
steady-state multiplier are folded into the multiplier before the final
truncation and clamp to `[30, 300]`. -/
def calculate_session_gap (sessions : List HarvestSession) (base_gap : ℤ)
    (gap_multiplier : ℚ) : ℤ :=
  let m1 : ℚ := if degradationDetected sessions then gap_multiplier * 3 else gap_multiplier
  let m2 : ℚ := if 2 ≤ sessions.length then m1 * (5 / 2) else m1
  let final_gap : ℤ := truncTowardZero ((base_gap : ℚ) * m2)
  min (max final_gap 30) 300

/-- Claim C3: the returned gap is the base draw times the degradation
multiplier (3.0 when the two most recent sessions dropped by more than 10
points), times the steady-state multiplier (2.5 once at least 2 sessions
exist), times the caller's hint multiplier — all composed multiplicatively,
with the clamp to `[30, 300]` applied last. -/
theorem session_gap_multiplicative_clamp_last
    (sessions : List HarvestSession) (base_gap : ℤ) (hint : ℚ) :
    calculate_session_gap sessions base_gap hint =
      min (max (truncTowardZero ((base_gap : ℚ) *
        ((if degradationDetected sessions then (3 : ℚ) else 1) *
         (if 2 ≤ sessions.length then (5 / 2 : ℚ) else 1) * hint))) 30) 300 := by
  unfold calculate_session_gap
  cases hdeg : degradationDetected sessions <;>
    by_cases hlen : 2 ≤ sessions.length <;>
      simp [hdeg, hlen] <;> ring_nf

lemma truncTowardZero_mono_of_nonneg {p q : ℚ} (hp : 0 ≤ p) (hpq : p ≤ q) :
    truncTowardZero p ≤ truncTowardZero q := by
  unfold truncTowardZero
  rw [if_pos hp, if_pos (le_trans hp hpq)]
  exact Int.floor_le_floor hpq

/-- Claim C4: the gap is always within `[30, 300]`, and for a fixed history
and base draw it is monotonically non-decreasing in the hint multiplier. -/
theorem session_gap_range_and_monotone :
    (∀ (sessions : List HarvestSession) (base_gap : ℤ) (hint : ℚ),
      30 ≤ calculate_session_gap sessions base_gap hint ∧
        calculate_session_gap sessions base_gap hint ≤ 300) ∧
    (∀ (sessions : List HarvestSession) (base_gap : ℤ) (h₁ h₂ : ℚ),
      0 ≤ base_gap → 0 ≤ h₁ → h₁ ≤ h₂ →
      calculate_session_gap sessions base_gap h₁ ≤
        calculate_session_gap sessions base_gap h₂) := by
  constructor
  · intro sessions base_gap hint
    rw [session_gap_multiplicative_clamp_last]
    constructor <;> omega
  · intro sessions base_gap h₁ h₂ hbase h₁pos h₁₂
    rw [session_gap_multiplicative_clamp_last, session_gap_multiplicative_clamp_last]
    have hb : (0 : ℚ) ≤ (base_gap : ℚ) := by exact_mod_cast hbase
    set M : ℚ := (if degradationDetected sessions then (3 : ℚ) else 1) *
        (if 2 ≤ sessions.length then (5 / 2 : ℚ) else 1) with hM
    have hm : (0 : ℚ) ≤ M := by rw [hM]; positivity
    have hple : (base_gap : ℚ) * (M * h₁) ≤ (base_gap : ℚ) * (M * h₂) :=
      mul_le_mul_of_nonneg_left (mul_le_mul_of_nonneg_left h₁₂ hm) hb
    have hp0 : (0 : ℚ) ≤ (base_gap : ℚ) * (M * h₁) :=
      mul_nonneg hb (mul_nonneg hm h₁pos)
    have := truncTowardZero_mono_of_nonneg hp0 hple
    omega

/-- Witness for C4 at a concrete history, base draw and hint pair. -/
theorem session_gap_range_and_monotone_witness :
    (30 ≤ calculate_session_gap [] 50 1 ∧ calculate_session_gap [] 50 1 ≤ 300) ∧
    calculate_session_gap [] 50 1 ≤ calculate_session_gap [] 50 2 := by
  exact ⟨session_gap_range_and_monotone.1 [] 50 1,
    session_gap_range_and_monotone.2 [] 50 1 2 (by norm_num) (by norm_num) (by norm_num)⟩

/-- ASCII lowercasing of one character (`str.lower()` restricted to the ASCII
range the scraper's date strings live in). -/
def asciiLower (c : Char) : Char :=
  if 65 ≤ c.toNat ∧ c.toNat ≤ 90 then Char.ofNat (c.toNat + 32) else c

/-- Python's `\s` class on the ASCII range. -/
def isPySpace (c : Char) : Bool :=
  c == ' ' || c == '\t' || c == '\n' || c == '\r' || c == '\x0b' || c == '\x0c'

/-- Numeric value of a digit run (`int(match.group(1))`). -/
def digitsVal (ds : List Char) : ℕ :=
  ds.foldl (fun acc c => 10 * acc + (c.toNat - 48)) 0

/-- The unit alternation `(year|month|day|hour)` of the regex in
`_parse_date_to_priority`. -/
inductive DateUnit where
  | year
  | month
  | day
  | hour
deriving DecidableEq, Repr

/-- The unit token as a string. -/
def unitWord (u : DateUnit) : String :=
  match u with
  | .year => "year"
  | .month => "month"
  | .day => "day"
  | .hour => "hour"

/-- Try the alternation `year|month|day|hour` at the head of the input. -/
def matchUnitAt (l : List Char) : Option DateUnit :=
  if List.isPrefixOf ("year".toList) l then some DateUnit.year
  else if List.isPrefixOf ("month".toList) l then some DateUnit.month
  else if List.isPrefixOf ("day".toList) l then some DateUnit.day
  else if List.isPrefixOf ("hour".toList) l then some DateUnit.hour
  else none

/-- Try the regex `(\d+)\s+(year|month|day|hour)` anchored at the head of the
input.  Greedy `\d+` and `\s+` need no backtracking here because a digit can
never satisfy `\s` and a space can never start a unit word. -/
def matchPatternAt (l : List Char) : Option (ℕ × DateUnit) :=
  if (l.takeWhile Char.isDigit).isEmpty then none
  else if (((l.dropWhile Char.isDigit).takeWhile isPySpace)).isEmpty then none
  else
    match matchUnitAt ((l.dropWhile Char.isDigit).dropWhile isPySpace) with
    | some u => some (digitsVal (l.takeWhile Char.isDigit), u)
    | none => none

/-- `re.search`: try the pattern at every start position, leftmost match
wins. -/
def searchPattern : List Char → Option (ℕ × DateUnit)
  | [] => none
  | c :: rest =>
    match matchPatternAt (c :: rest) with
    | some r => some r
    | none => searchPattern rest

/-- Day-equivalent conversion used by `_parse_date_to_priority`. -/
def dayEquiv (u : DateUnit) (n : ℕ) : ℤ :=
  match u with
  | .year => n * 365
  | .month => n * 30
  | .day => n
  | .hour => 0

/-- `_parse_date_to_priority` (lines 286–308): empty string maps to 9999, a
matched magnitude/unit pair converts to day scale, anything else maps to the
5000 sentinel. -/
def parse_date_to_priority (date_str : String) : ℤ :=
  if date_str = "" then 9999
  else
    match searchPattern (date_str.toList.map asciiLower) with
    | some (n, u) => dayEquiv u n
    | none => 5000

section ParserLemmas

lemma asciiLower_of_isDigit {c : Char} (h : c.isDigit = true) : asciiLower c = c := by
  have h' : 48 ≤ c.toNat ∧ c.toNat ≤ 57 := by
    simp [Char.isDigit, Char.le_def] at h
    exact h
  unfold asciiLower
  rw [if_neg]
  rintro ⟨h65, _⟩
  omega

lemma takeWhile_append_all {α : Type} {p : α → Bool} {l₁ l₂ : List α} {x : α}
    (h₁ : ∀ c ∈ l₁, p c = true) (hx : p x = false) :
    (l₁ ++ x :: l₂).takeWhile p = l₁ := by
  induction l₁ with
  | nil => simp [List.takeWhile, hx]
  | cons a rest ih =>
      have ha : p a = true := h₁ a (by simp)
      simp [List.takeWhile, ha]
      exact ih (fun c hc => h₁ c (by simp [hc]))

lemma dropWhile_append_all {α : Type} {p : α → Bool} {l₁ l₂ : List α} {x : α}
    (h₁ : ∀ c ∈ l₁, p c = true) (hx : p x = false) :
    (l₁ ++ x :: l₂).dropWhile p = x :: l₂ := by
  induction l₁ with
  | nil => simp [List.dropWhile, hx]
  | cons a rest ih =>
      have ha : p a = true := h₁ a (by simp)
      simp [List.dropWhile, ha]
      exact ih (fun c hc => h₁ c (by simp [hc]))

lemma matchUnitAt_word (u : DateUnit) (suffix : List Char) :
    matchUnitAt ((unitWord u).toList ++ suffix) = some u := by
  cases u <;>
    simp [matchUnitAt, unitWord, List.isPrefixOf_iff_prefix, List.cons_prefix_cons]

end ParserLemmas

section ParserSearchLemmas

lemma word_head (u : DateUnit) :
    ∃ wh wt, (unitWord u).toList = wh :: wt ∧ isPySpace wh = false := by
  cases u
  · exact ⟨'y', ("ear").toList, rfl, by decide⟩
  · exact ⟨'m', ("onth").toList, rfl, by decide⟩
  · exact ⟨'d', ("ay").toList, rfl, by decide⟩
  · exact ⟨'h', ("our").toList, rfl, by decide⟩

lemma map_asciiLower_word (u : DateUnit) :
    ((unitWord u).toList).map asciiLower = (unitWord u).toList := by
  cases u <;> decide

lemma map_asciiLower_digits {ds : List Char} (h : ∀ c ∈ ds, c.isDigit = true) :
    ds.map asciiLower = ds := by
  induction ds with
  | nil => rfl
  | cons d rest ih =>
      have hd := asciiLower_of_isDigit (h d (by simp))
      simp [hd]
      exact ih (fun c hc => h c (by simp [hc]))

lemma matchPatternAt_digits_space (d : Char) (ds : List Char)
    (hdig : ∀ c ∈ d :: ds, c.isDigit = true) (u : DateUnit) (suf : List Char) :
    matchPatternAt ((d :: ds) ++ (' ' :: ((unitWord u).toList ++ suf))) =
      some (digitsVal (d :: ds), u) := by
  obtain ⟨wh, wt, hw, hwsp⟩ := word_head u
  have htake : ((d :: ds) ++ (' ' :: ((unitWord u).toList ++ suf))).takeWhile Char.isDigit
      = d :: ds := takeWhile_append_all hdig (by decide)
  have hdrop : ((d :: ds) ++ (' ' :: ((unitWord u).toList ++ suf))).dropWhile Char.isDigit
      = ' ' :: ((unitWord u).toList ++ suf) := dropWhile_append_all hdig (by decide)
  unfold matchPatternAt
  rw [htake, hdrop]
  have hsp : (' ' :: ((unitWord u).toList ++ suf)).takeWhile isPySpace =
      ' ' :: (((unitWord u).toList ++ suf).takeWhile isPySpace) := by
    simp [List.takeWhile_cons]
    decide
  have hdropsp : (' ' :: ((unitWord u).toList ++ suf)).dropWhile isPySpace =
      (unitWord u).toList ++ suf := by
    rw [List.dropWhile_cons]
    rw [if_pos (by decide)]
    rw [hw, List.cons_append, List.dropWhile_cons, if_neg (by simp [hwsp]), ← List.cons_append, ← hw]
  rw [hsp, hdropsp]
  rw [if_neg (by simp)]
  rw [if_neg (by simp)]
  rw [matchUnitAt_word]

lemma searchPattern_digits_space (ds : List Char) (hne : ds ≠ [])
    (hdig : ∀ c ∈ ds, c.isDigit = true) (u : DateUnit) (suf : List Char) :
    searchPattern (ds ++ (' ' :: ((unitWord u).toList ++ suf))) =
      some (digitsVal ds, u) := by
  obtain ⟨d, ds', rfl⟩ := List.exists_cons_of_ne_nil hne
  rw [List.cons_append]
  unfold searchPattern
  rw [← List.cons_append, matchPatternAt_digits_space d ds' hdig u suf]

end ParserSearchLemmas

/-- Claim C7: the age-priority function sends the documented concrete buckets
to their day-equivalents, sends the empty string to 9999, sends any non-empty
string the regex cannot match to 5000, and in general sends a string of the
shape `digits`, space, unit word, arbitrary tail to the day-equivalent of its
magnitude under that unit (hour→0, day→n, month→n·30, year→n·365). -/
theorem age_priority_spec :
    parse_date_to_priority "3 years ago" = 1095 ∧
    parse_date_to_priority "5 months ago" = 150 ∧
    parse_date_to_priority "2 days ago" = 2 ∧
    parse_date_to_priority "1 hour ago" = 0 ∧
    parse_date_to_priority "" = 9999 ∧
    parse_date_to_priority "banana" = 5000 ∧
    (∀ s : String, s ≠ "" → searchPattern (s.toList.map asciiLower) = none →
      parse_date_to_priority s = 5000) ∧
    (∀ (ds : List Char) (u : DateUnit) (suf : List Char),
      ds ≠ [] → (∀ c ∈ ds, c.isDigit = true) →
      parse_date_to_priority (String.mk (ds ++ (' ' :: ((unitWord u).toList ++ suf)))) =
        dayEquiv u (digitsVal ds)) := by
  refine ⟨by decide, by decide, by decide, by decide, by decide, by decide, ?_, ?_⟩
  · intro s hs hnone
    unfold parse_date_to_priority
    rw [if_neg hs, hnone]
  · intro ds u suf hne hdig
    have hne_str : (String.mk (ds ++ (' ' :: ((unitWord u).toList ++ suf)))) ≠ "" := by
      intro h
      have hdata := congrArg String.data h
      obtain ⟨d, ds', rfl⟩ := List.exists_cons_of_ne_nil hne
      simp at hdata
    unfold parse_date_to_priority
    rw [if_neg hne_str]
    have hlist : (String.mk (ds ++ (' ' :: ((unitWord u).toList ++ suf)))).toList =
        ds ++ (' ' :: ((unitWord u).toList ++ suf)) := rfl
    rw [hlist]
    have hmap : (ds ++ (' ' :: ((unitWord u).toList ++ suf))).map asciiLower =
        ds ++ (' ' :: ((unitWord u).toList ++ (suf.map asciiLower))) := by
      rw [List.map_append, map_asciiLower_digits hdig, List.map_cons, List.map_append,
        map_asciiLower_word]
      rfl
    rw [hmap, searchPattern_digits_space ds hne hdig u (suf.map asciiLower)]

/-- Witness for C7: the general clauses applied at concrete inputs. -/
theorem age_priority_spec_witness :
    parse_date_to_priority (String.mk (['4'] ++ (' ' :: ((unitWord DateUnit.month).toList ++ (" ago").toList)))) = 120 ∧
    parse_date_to_priority "xyz" = 5000 := by
  constructor
  · rw [age_priority_spec.2.2.2.2.2.2.2 ['4'] DateUnit.month ((" ago").toList)
      (by decide) (by decide)]
    decide
  · exact age_priority_spec.2.2.2.2.2.2.1 "xyz" (by decide) (by decide)

/-- Stable insertion of `a` into a key-sorted list: `a` goes in front of the
first element whose key is not smaller.  Elements with equal keys therefore
keep their original relative order, exactly as Python's stable `list.sort`. -/
def insertByKey {α : Type} (key : α → ℤ) (a : α) : List α → List α
  | [] => [a]
  | b :: bs => if key b < key a then b :: insertByKey key a bs else a :: b :: bs

/-- Stable sort by an integer key.  A stable sort's output is determined
uniquely by the key order and the input order, so this insertion sort returns
exactly the list Python's `sorted`/`list.sort` would. -/
def sortByKey {α : Type} (key : α → ℤ) : List α → List α
  | [] => []
  | x :: xs => insertByKey key x (sortByKey key xs)

/-- The result record of `_analyze_collection_gaps` (lines 255–284).  Only the
`most_recent_dates` entry is ever read downstream; `none` models the
empty-corpus branch, whose dict lacks the `most_recent_dates` key entirely. -/
structure CollectionAnalysis where
  most_recent_dates : Option (List String)
deriving DecidableEq, Repr

/-- `_analyze_collection_gaps`: on a non-empty corpus, the distinct non-empty
date buckets of the stored videos in first-appearance order, sorted stably by
age priority, truncated to the three most recent. -/
def analyze_collection_gaps (all_videos : Corpus) : CollectionAnalysis :=
  if all_videos.isEmpty then { most_recent_dates := none }
  else
    { most_recent_dates := some
        ((sortByKey parse_date_to_priority
          ((((all_videos.map Prod.snd).filter (fun v => v.date != "")).map VideoData.date).eraseDups)).take 3) }

/-- `dated_videos` of `_calculate_advanced_continuation_point` (line 353):
every stored video with a non-empty date, paired with its age priority. -/
def dated_pairs (all_videos : Corpus) : List (VideoData × ℤ) :=
  ((all_videos.map Prod.snd).filter (fun v => v.date != "")).map
    (fun v => (v, parse_date_to_priority v.date))

/-- `dated_videos.sort(key=lambda x: x[1])` (line 357). -/
def sortedDatedPairs (all_videos : Corpus) : List (VideoData × ℤ) :=
  sortByKey Prod.snd (dated_pairs all_videos)

/-- Placeholder record used only as the (never taken) default of a bounds-safe
list access. -/
def dummyVideo : VideoData := mkVideo ""

/-- Python `s[-8:]`: the last eight characters. -/
def pyLast8 (s : String) : String := String.mk (s.data.drop (s.data.length - 8))

/-- The `video_id_anchor` point built by the session-3+ branch (lines
355–375): the anchor is `dated_videos[target_index][0]` of the stably sorted
pair list, with `target_index = min(len(dated_videos) // 2,
len(dated_videos) - 1)` and `scroll_depth = min(session_num * 12, 50)`.  The
`getD` default is never taken because the branch runs only on a non-empty
pair list. -/
def videoAnchorPoint (all_videos : Corpus) (session_num : ℕ) : ContinuationPoint :=
  { strategy := "video_id_anchor",
    reasoning := "Session " ++ Nat.repr (session_num + 1) ++ ": Continue from video " ++
      pyLast8 ((sortedDatedPairs all_videos).getD
        (min ((sortedDatedPairs all_videos).length / 2)
          ((sortedDatedPairs all_videos).length - 1)) (dummyVideo, 0)).1.video_id ++
      "... (" ++
      ((sortedDatedPairs all_videos).getD
        (min ((sortedDatedPairs all_videos).length / 2)
          ((sortedDatedPairs all_videos).length - 1)) (dummyVideo, 0)).1.date ++ ")",
    scroll_offset := (min (session_num * 12) 50 : ℕ),
    target_date_range := some ((sortedDatedPairs all_videos).getD
      (min ((sortedDatedPairs all_videos).length / 2)
        ((sortedDatedPairs all_videos).length - 1)) (dummyVideo, 0)).1.date,
    anchor_video_id := some ((sortedDatedPairs all_videos).getD
      (min ((sortedDatedPairs all_videos).length / 2)
        ((sortedDatedPairs all_videos).length - 1)) (dummyVideo, 0)).1.video_id,
    expected_scroll_depth := (min (session_num * 12) 50 : ℕ) + 15,
    date_filter_active := true, scroll_strategy := "deep" }

/-- The "ultimate fallback" `deep_scroll` point (lines 391–398). -/
def deepScrollPoint (session_num : ℕ) : ContinuationPoint :=
  { strategy := "deep_scroll",
    reasoning := "Session " ++ Nat.repr (session_num + 1) ++ ": Deep scroll continuation",
    scroll_offset := (session_num : ℤ) * 10, target_date_range := none,
    anchor_video_id := none,
    expected_scroll_depth := (session_num : ℤ) * 10 + 25,
    date_filter_active := false, scroll_strategy := "deep" }

/-- The `date_anchor` fallback point (lines 377–389); the target bucket is
`most_recent_dates[-1]`. -/
def dateAnchorPoint (session_num : ℕ) (dates : List String) : ContinuationPoint :=
  { strategy := "date_anchor",
    reasoning := "Session " ++ Nat.repr (session_num + 1) ++ ": Target " ++ dates.getLastD "" ++ " content",
    scroll_offset := (session_num : ℤ) * 8,
    target_date_range := some (dates.getLastD ""),
    anchor_video_id := none,
    expected_scroll_depth := (session_num : ℤ) * 8 + 20,
    date_filter_active := true, scroll_strategy := "adaptive" }

/-- `_calculate_advanced_continuation_point` (lines 310–398).  `scroll_draw`
stands for the `random.randint(10, 15)` draw of the session-1 branch.  The
`sessions` list is inspected only for logging in the source and never affects
the result.  The `Except` error branch models the `KeyError` raised when the
empty-corpus analysis dict is indexed with `most_recent_dates`. -/
def calculate_advanced_continuation_point (all_videos : Corpus)
    (sessions : List HarvestSession) (session_num : ℕ) (scroll_draw : ℕ) :
    Except String ContinuationPoint :=
  if session_num = 0 then
    .ok { strategy := "fresh_start",
          reasoning := "Session 1: Fresh start from top",
          scroll_offset := 0, target_date_range := none, anchor_video_id := none,
          expected_scroll_depth := 0, date_filter_active := false,
          scroll_strategy := "standard" }
  else if session_num = 1 then
    .ok { strategy := "scroll_offset",
          reasoning := "Session 2: Start at scroll " ++ Nat.repr scroll_draw ++ " to avoid overlap",
          scroll_offset := (scroll_draw : ℤ), target_date_range := none,
          anchor_video_id := none,
          expected_scroll_depth := (scroll_draw : ℤ) + 20,
          date_filter_active := false, scroll_strategy := "adaptive" }
  else if (dated_pairs all_videos).isEmpty then
    match (analyze_collection_gaps all_videos).most_recent_dates with
    | none => .error "KeyError: most_recent_dates"
    | some dates =>
      if dates.isEmpty then .ok (deepScrollPoint session_num)
      else .ok (dateAnchorPoint session_num dates)
  else
    .ok (videoAnchorPoint all_videos session_num)

/-- The claim's anchor: the item at the median age-priority rank among the
corpus items that carry a known (non-empty) age bucket. -/
def medianAnchor (all_videos : Corpus) : Option VideoData :=
  ((sortedDatedPairs all_videos).get? ((sortedDatedPairs all_videos).length / 2)).map Prod.fst

section PlannerLemmas

lemma length_insertByKey {α : Type} (key : α → ℤ) (a : α) (l : List α) :
    (insertByKey key a l).length = l.length + 1 := by
  induction l with
  | nil => rfl
  | cons b bs ih =>
      unfold insertByKey
      by_cases h : key b < key a
      · rw [if_pos h]
        simp [ih]
      · rw [if_neg h]
        rfl

lemma length_sortByKey {α : Type} (key : α → ℤ) (l : List α) :
    (sortByKey key l).length = l.length := by
  induction l with
  | nil => rfl
  | cons x xs ih =>
      unfold sortByKey
      rw [length_insertByKey, ih]
      rfl

end PlannerLemmas

/-- Claim C5: at session index ≥ 2 with at least one dated corpus item, the
planner anchors on the item at the median age-priority rank, with offset
`min(index·12, 50)`, the anchor's bucket as target and the age filter on. -/
theorem plan_video_anchor_median (all_videos : Corpus)
    (sessions : List HarvestSession) (n draw : ℕ)
    (hn : 2 ≤ n) (hne : dated_pairs all_videos ≠ []) :
    ∃ (cp : ContinuationPoint) (anchor : VideoData),
      calculate_advanced_continuation_point all_videos sessions n draw = .ok cp ∧
      medianAnchor all_videos = some anchor ∧
      cp.strategy = "video_id_anchor" ∧
      cp.scroll_offset = ((min (n * 12) 50 : ℕ) : ℤ) ∧
      cp.anchor_video_id = some anchor.video_id ∧
      cp.target_date_range = some anchor.date ∧
      cp.date_filter_active = true := by
  have hn0 : n ≠ 0 := by omega
  have hn1 : n ≠ 1 := by omega
  have hpos : 0 < (sortedDatedPairs all_videos).length := by
    rw [sortedDatedPairs, length_sortByKey]
    exact List.length_pos.mpr hne
  have hmin : min ((sortedDatedPairs all_videos).length / 2)
      ((sortedDatedPairs all_videos).length - 1) =
      (sortedDatedPairs all_videos).length / 2 := by omega
  have hidx : (sortedDatedPairs all_videos).length / 2 <
      (sortedDatedPairs all_videos).length := by omega
  have hgd : (sortedDatedPairs all_videos).getD
      (min ((sortedDatedPairs all_videos).length / 2)
        ((sortedDatedPairs all_videos).length - 1)) (dummyVideo, 0) =
      (sortedDatedPairs all_videos).get ⟨(sortedDatedPairs all_videos).length / 2, hidx⟩ := by
    rw [hmin, List.getD_eq_get?, List.get?_eq_get hidx]
    rfl
  have hmed : medianAnchor all_videos =
      some ((sortedDatedPairs all_videos).get
        ⟨(sortedDatedPairs all_videos).length / 2, hidx⟩).1 := by
    unfold medianAnchor
    rw [List.get?_eq_get hidx]
    rfl
  refine ⟨videoAnchorPoint all_videos n, ((sortedDatedPairs all_videos).get
      ⟨(sortedDatedPairs all_videos).length / 2, hidx⟩).1, ?_, hmed, rfl, rfl, ?_, ?_, rfl⟩
  · unfold calculate_advanced_continuation_point
    rw [if_neg hn0, if_neg hn1,
      if_neg (by simp [List.isEmpty_iff, hne])]
  · simp only [videoAnchorPoint, hgd]
  · simp only [videoAnchorPoint, hgd]

/-- A corpus holding a single dated video, used as a concrete planner input. -/
def exCorpusDated : Corpus :=
  [("vidA", { mkVideo "vidA" with date := "3 years ago" })]

/-- Witness for C5 at a concrete dated corpus and session index 2. -/
theorem plan_video_anchor_median_witness :
    ∃ (cp : ContinuationPoint) (anchor : VideoData),
      calculate_advanced_continuation_point exCorpusDated [] 2 0 = .ok cp ∧
      medianAnchor exCorpusDated = some anchor ∧
      cp.strategy = "video_id_anchor" ∧
      cp.scroll_offset = ((min (2 * 12) 50 : ℕ) : ℤ) ∧
      cp.anchor_video_id = some anchor.video_id ∧
      cp.target_date_range = some anchor.date ∧
      cp.date_filter_active = true :=
  plan_video_anchor_median exCorpusDated [] 2 0 (by decide) (by decide)

/-- A video that carries no age bucket at all. -/
def undatedVideo : VideoData := mkVideo "vid_nodate"

/-- A corpus whose only item has no age bucket. -/
def exCorpusNoDates : Corpus := [("vid_nodate", undatedVideo)]

/-- A historical session whose recorded continuation carries an age bucket
(`target_date_range = "3 years ago"`). -/
def exSessionWithBucket : HarvestSession :=
  { session_id := "harvest_20240101_000000", timestamp := "2024-01-01T00:00:00",
    videos_found := 10, success_rate := 90, completion_time := 100,
    target_filter := "harvest_batch_1", total_score := 50,
    continuation_point := some
      { strategy := "date_anchor", reasoning := "",
        scroll_offset := 16, target_date_range := some "3 years ago",
        anchor_video_id := none, expected_scroll_depth := 36,
        date_filter_active := true, scroll_strategy := "adaptive" } }

/-- The deep-scroll point the planner actually produces at session index 2 on
a dateless corpus. -/
def exDeepCP : ContinuationPoint :=
  { strategy := "deep_scroll", reasoning := "Session 3: Deep scroll continuation",
    scroll_offset := 20, target_date_range := none, anchor_video_id := none,
    expected_scroll_depth := 45, date_filter_active := false,
    scroll_strategy := "deep" }

/-- Counterexample to C6: with no aged corpus item but a historical session
that did record an age bucket, the planner returns `deep_scroll` with offset
`2·10 = 20`, not the claimed `date_anchor` with offset `2·8 = 16`: the date
analysis is computed from corpus items only, so the history never enables the
`date_anchor` branch. -/
theorem plan_no_aged_items_not_date_anchor :
    calculate_advanced_continuation_point exCorpusNoDates [exSessionWithBucket] 2 0 =
      Except.ok exDeepCP ∧
    exDeepCP.strategy ≠ "date_anchor" ∧ exDeepCP.scroll_offset ≠ 2 * 8 := by
  refine ⟨rfl, by decide, by decide⟩

/-- Claim C6 (amended): at session index ≥ 2 on a non-empty corpus with no
aged items, the planner always returns `deep_scroll` with offset
`session_index · 10` and no anchor and no target bucket, regardless of the
session history. -/
theorem plan_no_aged_items_deep_scroll (all_videos : Corpus)
    (sessions : List HarvestSession) (n draw : ℕ)
    (hn : 2 ≤ n) (hne : all_videos ≠ [])
    (hnodate : ∀ p ∈ all_videos, (Prod.snd p).date = "") :
    ∃ cp : ContinuationPoint,
      calculate_advanced_continuation_point all_videos sessions n draw = .ok cp ∧
      cp.strategy = "deep_scroll" ∧ cp.scroll_offset = (n : ℤ) * 10 ∧
      cp.anchor_video_id = none ∧ cp.target_date_range = none := by
  have hn0 : n ≠ 0 := by omega
  have hn1 : n ≠ 1 := by omega
  have hfilter : (all_videos.map Prod.snd).filter (fun v => v.date != "") = [] := by
    rw [List.filter_eq_nil_iff]
    intro v hv
    obtain ⟨p, hp, rfl⟩ := List.mem_map.mp hv
    simp [hnodate p hp]
  have hdated : dated_pairs all_videos = [] := by
    unfold dated_pairs
    rw [hfilter]
    rfl
  have hanalysis : analyze_collection_gaps all_videos =
      { most_recent_dates := some [] } := by
    unfold analyze_collection_gaps
    rw [if_neg (by simp [List.isEmpty_iff, hne]), hfilter]
    rfl
  refine ⟨deepScrollPoint n, ?_, rfl, rfl, rfl, rfl⟩
  unfold calculate_advanced_continuation_point
  rw [if_neg hn0, if_neg hn1, if_pos (by rw [hdated]; rfl), hanalysis]
  rfl

/-- Witness for the amended C6 at a concrete dateless corpus. -/
theorem plan_no_aged_items_deep_scroll_witness :
    ∃ cp : ContinuationPoint,
      calculate_advanced_continuation_point exCorpusNoDates [] 3 0 = .ok cp ∧
      cp.strategy = "deep_scroll" ∧ cp.scroll_offset = (3 : ℤ) * 10 ∧
      cp.anchor_video_id = none ∧ cp.target_date_range = none :=
  plan_no_aged_items_deep_scroll exCorpusNoDates [] 3 0 (by decide) (by decide)
    (by decide)

/-- Claim C10: at session index ≥ 2 on an empty corpus the planner raises the
`KeyError` (the analysis dict lacks `most_recent_dates`); on any non-empty
corpus it returns a continuation point. -/
theorem plan_empty_corpus_keyerror :
    (∀ (sessions : List HarvestSession) (n draw : ℕ), 2 ≤ n →
      calculate_advanced_continuation_point [] sessions n draw =
        .error "KeyError: most_recent_dates") ∧
    (∀ (all_videos : Corpus) (sessions : List HarvestSession) (n draw : ℕ),
      2 ≤ n → all_videos ≠ [] →
      ∃ cp, calculate_advanced_continuation_point all_videos sessions n draw = .ok cp) := by
  constructor
  · intro sessions n draw hn
    have hn0 : n ≠ 0 := by omega
    have hn1 : n ≠ 1 := by omega
    unfold calculate_advanced_continuation_point
    rw [if_neg hn0, if_neg hn1, if_pos (by rfl)]
    rfl
  · intro all_videos sessions n draw hn hne
    have hn0 : n ≠ 0 := by omega
    have hn1 : n ≠ 1 := by omega
    by_cases hd : dated_pairs all_videos = []
    · have hsome : ∃ dates, (analyze_collection_gaps all_videos).most_recent_dates =
          some dates := by
        unfold analyze_collection_gaps
        rw [if_neg (by simp [List.isEmpty_iff, hne])]
        exact ⟨_, rfl⟩
      obtain ⟨dates, hdates⟩ := hsome
      unfold calculate_advanced_continuation_point
      rw [if_neg hn0, if_neg hn1, if_pos (by rw [hd]; rfl), hdates]
      cases dates with
      | nil => exact ⟨deepScrollPoint n, rfl⟩
      | cons d rest => exact ⟨dateAnchorPoint n (d :: rest), rfl⟩
    · unfold calculate_advanced_continuation_point
      rw [if_neg hn0, if_neg hn1, if_neg (by simp [List.isEmpty_iff, hd])]
      exact ⟨videoAnchorPoint all_videos n, rfl⟩

/-- Witness for C10 at a concrete empty and non-empty corpus. -/
theorem plan_empty_corpus_keyerror_witness :
    calculate_advanced_continuation_point [] [] 2 0 =
      .error "KeyError: most_recent_dates" ∧
    ∃ cp, calculate_advanced_continuation_point exCorpusNoDates [] 2 0 = .ok cp :=
  ⟨plan_empty_corpus_keyerror.1 [] 2 0 (by decide),
   plan_empty_corpus_keyerror.2 exCorpusNoDates [] 2 0 (by decide) (by decide)⟩

/-- One video record inside the persisted document's `all_videos` mapping.
`video_id`, `title` and `url` are indexed directly by the loader (required
keys); the rest are read with `.get` and a default, so they may be absent. -/
structure VideoDoc where
  video_id : String
  title : String
  url : String
  date : Option String
  date_raw : Option String
  likes : Option ℤ
  comments : Option ℤ
  shares : Option ℤ
  views : Option String
  description : Option String
  thumbnail_url : Option String
deriving DecidableEq, Repr

/-- A persisted `continuation_point` record; every key is read with `.get`
and a default.  `none` covers both an absent key and an explicit `null`. -/
structure ContinuationDoc where
  strategy : Option String
  reasoning : Option String
  scroll_offset : Option ℤ
  target_date_range : Option String
  anchor_video_id : Option String
  expected_scroll_depth : Option ℤ
  date_filter_active : Option Bool
  scroll_strategy : Option String
deriving DecidableEq, Repr

/-- A persisted session record; the seven scalar keys are indexed directly by
the loader.  The timestamp is its ISO string. -/
structure SessionDoc where
  session_id : String
  timestamp : String
  videos_found : ℕ
  success_rate : ℚ
  completion_time : ℚ
  target_filter : String
  total_score : ℤ
  continuation_point : Option ContinuationDoc
deriving DecidableEq, Repr

/-- The persisted `harvest_metadata` block; all keys optional at load. -/
structure MetadataDoc where
  harvester_version : Option String
  last_harvest : Option String
  total_sessions : Option ℤ
  total_videos : Option ℤ
  unique_videos : Option ℤ
  total_time : Option ℚ
  average_success_rate : Option ℚ
  total_score : Option ℤ
  best_session_score : Option ℤ
deriving DecidableEq, Repr

/-- The whole persisted `harvest_results.json` document.  (The writer also
duplicates some totals at top level; the loader never reads those, so they
are not modelled.) -/
structure HarvestDoc where
  harvest_metadata : Option MetadataDoc
  sessions : List SessionDoc
  all_videos : List (String × VideoDoc)
deriving DecidableEq, Repr

/-- The in-memory `HarvestStats` dataclass. -/
structure HarvestStats where
  total_sessions : ℤ
  total_videos : ℤ
  unique_videos : ℤ
  total_time : ℚ
  average_success_rate : ℚ
  total_score : ℤ
  best_session_score : ℤ
  last_harvest : String
deriving DecidableEq, Repr

/-- The harvester's in-memory state: `self.sessions`, `self.all_videos` and
`self.harvest_stats`. -/
structure HarvestState where
  sessions : List HarvestSession
  all_videos : Corpus
  harvest_stats : HarvestStats
deriving DecidableEq, Repr

/-- The `HarvestStats()` defaults. -/
def defaultStats : HarvestStats :=
  { total_sessions := 0, total_videos := 0, unique_videos := 0, total_time := 0,
    average_success_rate := 0, total_score := 0, best_session_score := 0,
    last_harvest := "" }

/-- The freshly constructed harvester state before any history is loaded. -/
def emptyState : HarvestState := ⟨[], [], defaultStats⟩

/-- Rebuilding one `VideoData` from its persisted record (lines 104–117). -/
def loadVideo (vd : VideoDoc) : VideoData :=
  { video_id := vd.video_id, title := vd.title, url := vd.url,
    date := vd.date.getD "", date_raw := vd.date_raw.getD "",
    likes := vd.likes.getD 0, comments := vd.comments.getD 0,
    shares := vd.shares.getD 0, views := vd.views.getD "",
    description := vd.description.getD "", thumbnail_url := vd.thumbnail_url.getD "" }

/-- Rebuilding one `ContinuationPoint` from its persisted record (lines
124–134). -/
def loadContinuation (cd : ContinuationDoc) : ContinuationPoint :=
  { strategy := cd.strategy.getD "fresh_start", reasoning := cd.reasoning.getD "",
    scroll_offset := cd.scroll_offset.getD 0,
    target_date_range := cd.target_date_range,
    anchor_video_id := cd.anchor_video_id,
    expected_scroll_depth := cd.expected_scroll_depth.getD 0,
    date_filter_active := cd.date_filter_active.getD false,
    scroll_strategy := cd.scroll_strategy.getD "adaptive" }

/-- Rebuilding one `HarvestSession` from its persisted record (lines
136–146). -/
def loadSession (sd : SessionDoc) : HarvestSession :=
  { session_id := sd.session_id, timestamp := sd.timestamp,
    videos_found := sd.videos_found, success_rate := sd.success_rate,
    completion_time := sd.completion_time, target_filter := sd.target_filter,
    total_score := sd.total_score,
    continuation_point := sd.continuation_point.map loadContinuation }

/-- Rebuilding `HarvestStats` from the metadata block (lines 91–100); a
missing block leaves the dataclass defaults in place. -/
def loadStats (md : Option MetadataDoc) : HarvestStats :=
  match md with
  | none => defaultStats
  | some m =>
    { total_sessions := m.total_sessions.getD 0,
      total_videos := m.total_videos.getD 0,
      unique_videos := m.unique_videos.getD 0,
      total_time := m.total_time.getD 0,
      average_success_rate := m.average_success_rate.getD 0,
      total_score := m.total_score.getD 0,
      best_session_score := m.best_session_score.getD 0,
      last_harvest := m.last_harvest.getD "" }

/-- The state described by a well-formed persisted document. -/
def stateOfDoc (d : HarvestDoc) : HarvestState :=
  { sessions := d.sessions.map loadSession,
    all_videos := d.all_videos.map (fun p => (p.1, loadVideo p.2)),
    harvest_stats := loadStats d.harvest_metadata }

/-- `_load_harvest_history` (lines 83–151): a parse/shape failure of the
stored file is caught, logged as a warning and the method returns normally,
leaving the freshly initialised empty state in place. -/
def load_harvest_history (raw : Except String HarvestDoc) : Except String HarvestState :=
  match raw with
  | .ok d => .ok (stateOfDoc d)
  | .error _ => .ok emptyState

/-- `asdict` of one `VideoData` (line 201): every field is written out. -/
def dumpVideo (v : VideoData) : VideoDoc :=
  { video_id := v.video_id, title := v.title, url := v.url,
    date := some v.date, date_raw := some v.date_raw,
    likes := some v.likes, comments := some v.comments,
    shares := some v.shares, views := some v.views,
    description := some v.description, thumbnail_url := some v.thumbnail_url }

/-- `asdict` of one `ContinuationPoint` (line 194). -/
def dumpContinuation (c : ContinuationPoint) : ContinuationDoc :=
  { strategy := some c.strategy, reasoning := some c.reasoning,
    scroll_offset := some c.scroll_offset,
    target_date_range := c.target_date_range,
    anchor_video_id := c.anchor_video_id,
    expected_scroll_depth := some c.expected_scroll_depth,
    date_filter_active := some c.date_filter_active,
    scroll_strategy := some c.scroll_strategy }

/-- One session's dictionary as written by the saver (lines 182–196). -/
def dumpSession (s : HarvestSession) : SessionDoc :=
  { session_id := s.session_id, timestamp := s.timestamp,
    videos_found := s.videos_found, success_rate := s.success_rate,
    completion_time := s.completion_time, target_filter := s.target_filter,
    total_score := s.total_score,
    continuation_point := s.continuation_point.map dumpContinuation }

/-- The document built by `_save_harvest_results` (lines 180–223);
`now_iso` is `datetime.now().isoformat()`.  Session count and unique-video
count are recomputed from the live lists, the other totals come from the
stats record. -/
def docOfState (now_iso : String) (s : HarvestState) : HarvestDoc :=
  { harvest_metadata := some
      { harvester_version := some "2.0",
        last_harvest := some now_iso,
        total_sessions := some (s.sessions.length : ℤ),
        total_videos := some s.harvest_stats.total_videos,
        unique_videos := some (s.all_videos.length : ℤ),
        total_time := some s.harvest_stats.total_time,
        average_success_rate := some s.harvest_stats.average_success_rate,
        total_score := some s.harvest_stats.total_score,
        best_session_score := some s.harvest_stats.best_session_score },
    sessions := s.sessions.map dumpSession,
    all_videos := s.all_videos.map (fun p => (p.1, dumpVideo p.2)) }

/-- `_save_harvest_results` (lines 177–231): any exception from building or
writing the file is caught, logged as an error and the method returns
normally. -/
def save_harvest_results (write : HarvestDoc → Except String Unit)
    (now_iso : String) (s : HarvestState) : Except String Unit :=
  match write (docOfState now_iso s) with
  | .ok _ => .ok ()
  | .error _ => .ok ()

section PersistenceLemmas

lemma loadVideo_dumpVideo (v : VideoData) : loadVideo (dumpVideo v) = v := rfl

lemma loadContinuation_dumpContinuation (c : ContinuationPoint) :
    loadContinuation (dumpContinuation c) = c := rfl

lemma loadSession_dumpSession (s : HarvestSession) :
    loadSession (dumpSession s) = s := by
  cases s with
  | mk sid ts vf sr ct tf score cont =>
      cases cont <;> rfl

lemma videos_roundtrip (l : Corpus) :
    (l.map (fun p => (p.1, dumpVideo p.2))).map (fun p => (p.1, loadVideo p.2)) = l := by
  induction l with
  | nil => rfl
  | cons p rest ih =>
      simp only [List.map_cons, ih]
      rw [loadVideo_dumpVideo]

lemma sessions_roundtrip (l : List HarvestSession) :
    (l.map dumpSession).map loadSession = l := by
  induction l with
  | nil => rfl
  | cons s rest ih => simp [ih, loadSession_dumpSession]

end PersistenceLemmas

/-- Counterexample to C8: a failed write is swallowed (the save call returns
normally instead of surfacing a fatal error), and a corrupt file at startup
is swallowed as well (the load call returns normally with the empty state
instead of refusing to start). -/
theorem persistence_errors_swallowed_cx :
    load_harvest_history (Except.error "corrupt json") = Except.ok emptyState ∧
    save_harvest_results (fun _ => Except.error "disk full") "2024-01-01T00:00:00"
      emptyState = Except.ok () := ⟨rfl, rfl⟩

/-- Claim C8 (amended): both state-integrity failure paths are absorbed, not
propagated — `_save_harvest_results` catches every write failure, logs it and
returns normally (the run continues with the unpersisted corpus in memory),
and `_load_harvest_history` catches a corrupt or unreadable prior state, logs
a warning and starts with the empty corpus. -/
theorem persistence_errors_absorbed :
    (∀ (write : HarvestDoc → Except String Unit) (now_iso : String) (s : HarvestState),
      save_harvest_results write now_iso s = Except.ok ()) ∧
    (∀ e : String, load_harvest_history (Except.error e) = Except.ok emptyState) := by
  constructor
  · intro write now_iso s
    unfold save_harvest_results
    cases write (docOfState now_iso s) <;> rfl
  · intro e
    rfl

/-- Claim C9: loading any persisted document and immediately re-saving it
produces a document that describes the identical corpus (same identity-to-item
mapping, all fields preserved) and the identical ordered session history with
its embedded continuation points. -/
theorem load_save_roundtrip_identity :
    ∀ (d : HarvestDoc) (now_iso : String),
      (stateOfDoc (docOfState now_iso (stateOfDoc d))).all_videos =
        (stateOfDoc d).all_videos ∧
      (stateOfDoc (docOfState now_iso (stateOfDoc d))).sessions =
        (stateOfDoc d).sessions := by
  have key : ∀ (s : HarvestState) (now_iso : String),
      (stateOfDoc (docOfState now_iso s)).all_videos = s.all_videos ∧
      (stateOfDoc (docOfState now_iso s)).sessions = s.sessions := by
    intro s now_iso
    constructor
    · show ((s.all_videos.map (fun p => (p.1, dumpVideo p.2))).map
        (fun p => (p.1, loadVideo p.2))) = s.all_videos
      exact videos_roundtrip s.all_videos
    · show ((s.sessions.map dumpSession).map loadSession) = s.sessions
      exact sessions_roundtrip s.sessions
  intro d now_iso
  exact key (stateOfDoc d) now_iso
